import Mathlib

/-!
Verification of the facescrape arbitrage pipeline.

Shallow embedding of the decision core of the repository:
currency amounts and prices are modelled as rationals, Python `None`
as `Option`, and the external collaborators (scraper, language-model
oracles) as function parameters.  Each definition mirrors one Python
function of the source tree; theorems settle the specification claims.
-/

namespace FaceScrape

/-! ## Python string helpers -/

/-- Whitespace characters stripped by Python's `str.strip()` (ASCII range). -/
def isPySpace (c : Char) : Bool :=
  c = ' ' || c = '\t' || c = '\n' || c = '\r' || c = '\x0b' || c = '\x0c'

/-- Model of Python `str.strip()`: drop leading and trailing whitespace. -/
def pyStrip (s : String) : String :=
  ⟨((s.data.dropWhile isPySpace).reverse.dropWhile isPySpace).reverse⟩

/-- Model of Python `str.lower()` for ASCII text. -/
def pyLower (s : String) : String :=
  ⟨s.data.map Char.toLower⟩

/-- Substring test on character lists, modelling Python's `needle in haystack`. -/
def containsSub (needle : List Char) : List Char → Bool
  | [] => decide (needle = [])
  | c :: rest => needle.isPrefixOf (c :: rest) || containsSub needle rest

/-! ## Rounding

Python's `round(x, n)` rounds half to even; the reals of the source are
modelled as rationals, so ties are exact here. -/

/-- Round a rational to the nearest integer, ties to the even integer. -/
def roundHalfEven (x : ℚ) : ℤ :=
  let f := ⌊x⌋
  let frac := x - f
  if frac < 1/2 then f
  else if 1/2 < frac then f + 1
  else if f % 2 = 0 then f else f + 1

/-- Model of Python `round(x, ndigits)` on rationals. -/
def pyRound (x : ℚ) (ndigits : ℕ) : ℚ :=
  (roundHalfEven (x * 10 ^ ndigits) : ℚ) / 10 ^ ndigits

/-! ## Distance parsing (`src/utils/pickup_cost.py`)

The three regular expressions of `parse_distance_from_location` are
embedded as explicit matchers over character lists; `searchFrom` scans
start positions left to right as `re.search` does. -/

/-- Numeric value of a digit list (most significant first). -/
def digitsToNat (ds : List Char) : ℕ :=
  ds.foldl (fun acc c => 10 * acc + (c.toNat - '0'.toNat)) 0

/-- Match the regex group `\d+(?:\.\d+)?` at the head of the input,
returning the parsed value and the rest of the input. -/
def matchNumber (cs : List Char) : Option (ℚ × List Char) :=
  let ds := cs.takeWhile Char.isDigit
  if ds.isEmpty then none
  else
    let rest := cs.drop ds.length
    let intPart : ℚ := (digitsToNat ds : ℚ)
    match rest with
    | '.' :: r2 =>
      let fs := r2.takeWhile Char.isDigit
      if fs.isEmpty then some (intPart, rest)
      else some (intPart + (digitsToNat fs : ℚ) / 10 ^ fs.length, r2.drop fs.length)
    | _ => some (intPart, rest)

/-- Drop the characters matched by `\s*`. -/
def skipSpaces (cs : List Char) : List Char :=
  cs.dropWhile isPySpace

/-- Match a literal string, returning the rest of the input. -/
def matchLit (lit : List Char) (cs : List Char) : Option (List Char) :=
  if lit.isPrefixOf cs then some (cs.drop lit.length) else none

/-- Word characters for the regex `\b` boundary (ASCII `\w`). -/
def isWordChar (c : Char) : Bool :=
  c.isAlphanum || c = '_'

/-- Match pattern 1, `(\d+(?:\.\d+)?)\s*miles?\s*away`, at this position. -/
def mileAwayAt (cs : List Char) : Option ℚ :=
  match matchNumber cs with
  | none => none
  | some (v, r1) =>
    match matchLit "mile".data (skipSpaces r1) with
    | none => none
    | some r2 =>
      let tryAway : List Char → Bool := fun r =>
        (matchLit "away".data (skipSpaces r)).isSome
      match r2 with
      | 's' :: r3 => if tryAway r3 || tryAway r2 then some v else none
      | _ => if tryAway r2 then some v else none

/-- Match pattern 2, `(\d+(?:\.\d+)?)\s*mi\b`, at this position. -/
def miAt (cs : List Char) : Option ℚ :=
  match matchNumber cs with
  | none => none
  | some (v, r1) =>
    match matchLit "mi".data (skipSpaces r1) with
    | none => none
    | some r2 =>
      match r2 with
      | [] => some v
      | c :: _ => if isWordChar c then none else some v

/-- Match pattern 3, `·\s*(\d+(?:\.\d+)?)\s*miles?`, at this position. -/
def dotMilesAt (cs : List Char) : Option ℚ :=
  match matchLit "·".data cs with
  | none => none
  | some r1 =>
    match matchNumber (skipSpaces r1) with
    | none => none
    | some (v, r2) =>
      match matchLit "mile".data (skipSpaces r2) with
      | none => none
      | some _ => some v

/-- Model of `re.search`: try the matcher at each start position, left to right. -/
def searchFrom (f : List Char → Option ℚ) : List Char → Option ℚ
  | [] => f []
  | c :: rest =>
    match f (c :: rest) with
    | some v => some v
    | none => searchFrom f rest

/-- Model of `PickupCostCalculator.parse_distance_from_location`. -/
def parse_distance_from_location (location : String) : Option ℚ :=
  if location = "" then none
  else
    let cs := (pyLower location).data
    match searchFrom mileAwayAt cs with
    | some v => some v
    | none =>
      match searchFrom miAt cs with
      | some v => some v
      | none => searchFrom dotMilesAt cs

/-- Breakdown returned by `PickupCostCalculator.calculate`. -/
structure PickupCost where
  distance_miles : ℚ
  round_trip_miles : ℚ
  gas_price_per_gallon : ℚ
  vehicle_mpg : ℚ
  gallons_needed : ℚ
  fuel_cost : ℚ
  deriving DecidableEq, Repr

/-- Model of `PickupCostCalculator.calculate` on the `location_string` path;
the gas price obtained from `get_gas_price` is passed in explicitly. -/
def calculatePickup (vehicle_mpg gas_price : ℚ) (location : String) : Option PickupCost :=
  match parse_distance_from_location location with
  | none => none
  | some d =>
    let round_trip := d * 2
    let gallons_needed := round_trip / vehicle_mpg
    some
      { distance_miles := d
        round_trip_miles := round_trip
        gas_price_per_gallon := gas_price
        vehicle_mpg := vehicle_mpg
        gallons_needed := gallons_needed
        fuel_cost := gallons_needed * gas_price }

/-! ## Profit analysis (`src/services/arbitrage.py`, `analyze_listing`) -/

/-- Analysis fields written onto a listing by `analyze_listing`. -/
structure ProfitFields where
  potential_profit : ℚ
  profit_percent : ℚ
  is_arbitrage_opportunity : Bool
  deriving DecidableEq, Repr

/-- Model of lines 91-116 of `analyze_listing`: the profit computation,
guarded by `reference_price and reference_price > price`; Python
truthiness makes a reference price of `0` fall into the else branch. -/
def computeProfitFields (price : ℚ) (reference_price : Option ℚ)
    (pickup_cost ebay_fee_percent shipping_estimate
     min_profit_dollars min_profit_percent : ℚ) : ProfitFields :=
  match reference_price with
  | some r =>
    if r ≠ 0 ∧ r > price then
      let gross_sale := r
      let ebay_fees := gross_sale * (ebay_fee_percent / 100)
      let net_after_fees := gross_sale - ebay_fees - shipping_estimate
      let total_cost := price + pickup_cost
      let profit := net_after_fees - total_cost
      let profit_percent := if total_cost > 0 then profit / total_cost * 100 else 0
      { potential_profit := pyRound profit 2
        profit_percent := pyRound profit_percent 1
        is_arbitrage_opportunity :=
          decide (profit ≥ min_profit_dollars ∨ profit_percent ≥ min_profit_percent) }
    else { potential_profit := 0, profit_percent := 0, is_arbitrage_opportunity := false }
  | none => { potential_profit := 0, profit_percent := 0, is_arbitrage_opportunity := false }

/-- Model of `analyze_listing`: the pickup-cost variable starts at `0.0`
and is overwritten only when the calculator is present and returns a
result; the profit fields are then computed as in the source. -/
def analyzeListing (price : ℚ) (reference_price : Option ℚ) (location : String)
    (pickup_calculator : Option (ℚ × ℚ))
    (ebay_fee_percent shipping_estimate min_profit_dollars min_profit_percent : ℚ) :
    ProfitFields :=
  let pickup_cost : ℚ :=
    match pickup_calculator with
    | none => 0
    | some (mpg, gas) =>
      match calculatePickup mpg gas location with
      | none => 0
      | some pc => pc.fuel_cost
  computeProfitFields price reference_price pickup_cost
    ebay_fee_percent shipping_estimate min_profit_dollars min_profit_percent

/-! ## AI matcher construction (`src/utils/ai_matcher.py`, `src/services/price_lookup.py`) -/

/-- Keyword parameters declared by `AIItemMatcher.__init__` (lines 48-54 of
`src/utils/ai_matcher.py`). -/
def aiItemMatcherInitKeywords : List String :=
  ["gemini_api_key", "gemini_model", "min_title_similarity", "min_overall_confidence"]

/-- Threshold configuration of an `AIItemMatcher` instance. -/
structure AIItemMatcher where
  min_title_similarity : ℚ
  min_overall_confidence : ℚ
  deriving DecidableEq, Repr

/-- Model of `PriceLookupService._get_ai_matcher` (lines 85-91 of
`src/services/price_lookup.py`): it constructs
`AIItemMatcher(match_threshold=self.ai_min_confidence)`; a Python call with
a keyword argument the callee's signature does not declare raises
`TypeError`, and `AIItemMatcher.__init__` declares no `match_threshold`
parameter, so the else branch below is the one the code takes. -/
def getAiMatcher (ai_min_confidence : ℚ) : Except String AIItemMatcher :=
  if "match_threshold" ∈ aiItemMatcherInitKeywords then
    Except.ok { min_title_similarity := 3/10, min_overall_confidence := ai_min_confidence }
  else
    Except.error
      "TypeError: AIItemMatcher.__init__ got an unexpected keyword argument match_threshold"

/-! ## Ambiguity resolution (`src/search_terms.py`) -/

/-- One disambiguated meaning surfaced to the user. -/
structure Interpretation where
  meaning : String
  search_terms : List String
  deriving DecidableEq, Repr

/-- Result dictionary of `evaluate_search_term`. -/
structure TermEvaluation where
  needs_clarification : Bool
  interpretations : List Interpretation
  reasoning : String
  deriving DecidableEq, Repr

/-- The hardcoded `ALWAYS_AMBIGUOUS` table (lines 296-327 of
`src/search_terms.py`), in dictionary insertion order. -/
def ALWAYS_AMBIGUOUS : List (String × List (String × List String)) :=
  [ ("ram",
     [("computer memory", ["DDR4 RAM", "DDR5 RAM", "desktop RAM", "laptop RAM"]),
      ("truck parts", ["Dodge Ram parts", "Ram 1500", "Ram 2500", "Ram truck"])]),
    ("charger",
     [("electronics", ["phone charger", "USB charger", "laptop charger", "battery charger"]),
      ("vehicle", ["Dodge Charger parts", "Charger RT", "Charger Hellcat"])]),
    ("switch",
     [("gaming", ["Nintendo Switch", "Switch OLED", "Switch Lite", "Switch games"]),
      ("networking", ["network switch", "ethernet switch", "Cisco switch"]),
      ("electrical", ["light switch", "wall switch", "dimmer switch"])]),
    ("pilot",
     [("vehicle", ["Honda Pilot", "Pilot SUV", "Honda Pilot parts"]),
      ("pens", ["Pilot pen", "G2 Pilot", "Pilot G2"]),
      ("aviation", ["pilot headset", "pilot supplies"])]),
    ("element",
     [("vehicle", ["Honda Element", "Element SUV", "Honda Element parts"]),
      ("speakers", ["Element speakers", "Element audio"])]),
    ("explorer",
     [("vehicle", ["Ford Explorer", "Explorer SUV", "Explorer parts"]),
      ("software", ["Internet Explorer", "File Explorer"])]),
    ("titan",
     [("graphics", ["NVIDIA Titan", "Titan RTX", "GTX Titan"]),
      ("vehicle", ["Nissan Titan", "Titan truck"])]) ]

/-- Dictionary lookup in the `ALWAYS_AMBIGUOUS` table. -/
def lookupAlwaysAmbiguous (key : String) : Option (List (String × List String)) :=
  (ALWAYS_AMBIGUOUS.find? (fun p => p.fst == key)).map (fun p => p.snd)

/-- Model of `evaluate_search_term` (lines 330-358): a term whose
lowercased, stripped form is in the hardcoded table is flagged for
clarification from the table; only other terms are passed to the
language-model oracle. -/
def evaluate_search_term (oracle : String → TermEvaluation) (term : String) : TermEvaluation :=
  let term_lower := pyStrip (pyLower term)
  match lookupAlwaysAmbiguous term_lower with
  | some meanings =>
    { needs_clarification := true
      interpretations := meanings.map (fun m => { meaning := m.fst, search_terms := m.snd })
      reasoning := "'" ++ term ++ "' is a known ambiguous term with multiple meanings" }
  | none => oracle term

/-! ## Search term generation (`src/utils/search_term_generator.py`)

The pipeline is modelled with its three external language-model calls as
function parameters; the `raw_responses` dictionary is modelled by its key
list, recorded in insertion order exactly where the source assigns it,
which doubles as a trace of which pipeline states ran. -/

/-- Result of search term generation for a single item. -/
structure SearchTermResult where
  search_term : Option String
  source : String
  reasoning : String
  raw_responses : List String
  deriving DecidableEq, Repr

/-- Model of the `should_drop` property. -/
def SearchTermResult.should_drop (r : SearchTermResult) : Bool :=
  r.search_term.isNone

/-- Result of search term generation for a listing. -/
structure MultiItemResult where
  items : List SearchTermResult
  is_multi_item : Bool
  original_title : String
  deriving DecidableEq, Repr

/-- Model of the `valid_items` property: items that were not dropped. -/
def MultiItemResult.valid_items (m : MultiItemResult) : List SearchTermResult :=
  m.items.filter (fun i => ¬ i.should_drop)

/-- External language-model calls made by `SearchTermGenerator`:
image identification, the specificity question (term, context) and the raw
synthesis response for (title, description, image description). -/
structure PipelineOracles where
  identify_from_image : String → String → Option String
  is_specific_enough : String → String → Bool × String
  synth_response : String → Option String → Option String → String

/-- The drop sentinel returned by `_synthesize_term`. -/
def CANNOT_IDENTIFY : String := "CANNOT_IDENTIFY"

/-- Generic placeholder words filtered by `_synthesize_term` (line 344). -/
def bad_words : List String := ["unknown", "unidentified", "generic", "unbranded", "n/a", "none"]

/-- Fuel-driven model of Python `str.replace`: replace every
non-overlapping occurrence of `needle`, scanning left to right. -/
def pyReplaceAux (needle repl : List Char) : ℕ → List Char → List Char
  | 0, cs => cs
  | Nat.succ fuel, cs =>
    if needle ≠ [] && needle.isPrefixOf cs then
      repl ++ pyReplaceAux needle repl fuel (cs.drop needle.length)
    else
      match cs with
      | [] => []
      | c :: rest => c :: pyReplaceAux needle repl fuel rest

/-- Model of Python `str.replace` on strings. -/
def pyReplace (s needle repl : String) : String :=
  ⟨pyReplaceAux needle.data repl.data s.data.length s.data⟩

/-- Cleanup applied by `_synthesize_term` to the raw model response:
strip, then drop a leading `SEARCH TERM:` label (Python `replace` removes
every occurrence) and strip again. -/
def cleanResponse (response : String) : String :=
  let term := pyStrip response
  if "SEARCH TERM:".data.isPrefixOf term.data then pyStrip (pyReplace term "SEARCH TERM:" "")
  else term

/-- Model of `_synthesize_term` (lines 296-350): clean the model response,
then return the `CANNOT_IDENTIFY` sentinel whenever the candidate contains
any generic placeholder word case-insensitively. -/
def synthesize_term (o : PipelineOracles) (title : String)
    (description image_description : Option String) : String :=
  let term := cleanResponse (o.synth_response title description image_description)
  if bad_words.any (fun bad => containsSub bad.data (pyLower term).data) then CANNOT_IDENTIFY
  else term

/-- Python truthiness of an optional string. -/
def optTruthy : Option String → Bool
  | none => false
  | some s => s ≠ ""

/-- The terminal drop result of `generate_search_term` (lines 707-712). -/
def dropResult (raw : List String) : SearchTermResult :=
  { search_term := none
    source := "dropped"
    reasoning := "Could not generate a specific enough search term from title, description, or image"
    raw_responses := raw }

/-- States 5-6 of `generate_search_term` (lines 666-701): the
title+description+image synthesis, only reachable when an image
identification exists. -/
def pipelineStep5 (o : PipelineOracles) (title : String) (description : Option String)
    (image_identification : Option String) (raw : List String) : SearchTermResult :=
  match image_identification with
  | some ident =>
    let v2 := synthesize_term o title description (some ident)
    let raw2 := raw ++ ["synthesized_v2"]
    if v2 ≠ "" ∧ v2 ≠ CANNOT_IDENTIFY then
      let pr := o.is_specific_enough v2 "Synthesized from title, description, and image analysis"
      let raw3 := raw2 ++ ["v2_specificity_check"]
      if pr.fst then
        { search_term := some v2, source := "title+description+image",
          reasoning := pr.snd, raw_responses := raw3 }
      else dropResult raw3
    else dropResult raw2
  | none => dropResult raw

/-- States 3-4 of `generate_search_term` (lines 633-661): the
title+description synthesis and its specificity check. -/
def pipelineStep3 (o : PipelineOracles) (title : String) (description : Option String)
    (image_identification : Option String) (raw : List String) : SearchTermResult :=
  let v1 := synthesize_term o title description none
  let raw1 := raw ++ ["synthesized_v1"]
  if v1 ≠ "" ∧ v1 ≠ CANNOT_IDENTIFY then
    let ctx := "Synthesized from title: '" ++ title ++ "'"
      ++ (if optTruthy description then " and description" else "")
    let pr := o.is_specific_enough v1 ctx
    let raw2 := raw1 ++ ["v1_specificity_check"]
    if pr.fst then
      { search_term := some v1, source := "title+description",
        reasoning := pr.snd, raw_responses := raw2 }
    else pipelineStep5 o title description image_identification raw2
  else pipelineStep5 o title description image_identification raw1

/-- States 2 onward of `generate_search_term` (lines 605-712), given the
already-computed image identification: check its specificity and accept
with source "image", or fall through to the synthesis states. -/
def imageStep (o : PipelineOracles) (title : String) (description : Option String)
    (image_identification : Option String) (raw0 : List String) : SearchTermResult :=
  match image_identification with
  | some ident =>
    let pr := o.is_specific_enough ident "This was identified from the listing image"
    let raw1 := raw0 ++ ["image_specificity_check"]
    if pr.fst then
      { search_term := some ident, source := "image",
        reasoning := pr.snd, raw_responses := raw1 }
    else pipelineStep3 o title description (some ident) raw1
  | none => pipelineStep3 o title description none raw0

/-- Model of `SearchTermGenerator.generate_search_term` (lines 575-712):
the cascading image / title+description / title+description+image
specificity state machine. -/
def generate_search_term (o : PipelineOracles) (title : String)
    (description image_url : Option String) : SearchTermResult :=
  let raw0 : List String := if optTruthy image_url then ["image_identification"] else []
  let image_identification : Option String :=
    match image_url with
    | some url =>
      if url ≠ "" then
        match o.identify_from_image url title with
        | some s => if s ≠ "" then some s else none
        | none => none
      else none
    | none => none
  imageStep o title description image_identification raw0

/-! ## Price lookup and aggregation (`src/services/price_lookup.py`) -/

/-- Individual sold item from eBay (`src/scrapers/ebay_scraper.py`). -/
structure EbaySoldItem where
  title : String
  price : ℚ
  shipping : ℚ
  total_price : ℚ
  condition : String
  sold_date : String
  url : String
  image_url : String
  deriving DecidableEq, Repr

/-- Unified price lookup result. -/
structure PriceLookupResult where
  query : String
  source : String
  avg_price : ℚ
  median_price : ℚ
  min_price : ℚ
  max_price : ℚ
  sample_size : ℕ
  deriving DecidableEq, Repr

/-- Model of Python's builtin `min` on a list (meaningful on nonempty lists). -/
def pyMin : List ℚ → ℚ
  | [] => 0
  | x :: xs => xs.foldl min x

/-- Model of Python's builtin `max` on a list (meaningful on nonempty lists). -/
def pyMax : List ℚ → ℚ
  | [] => 0
  | x :: xs => xs.foldl max x

/-- URL-deduplicated extension of one query's result page into the
accumulated result list, carrying the `seen_urls` set. -/
def addPage (page : List EbaySoldItem) (seen : List String) :
    List EbaySoldItem × List String :=
  match page with
  | [] => ([], seen)
  | it :: rest =>
    if it.url ∈ seen then addPage rest seen
    else
      let (acc, seen2) := addPage rest (it.url :: seen)
      (it :: acc, seen2)

/-- Model of the retrieval loop of `lookup_ebay_smart` (lines 175-183):
take `max_candidates_per_query` results per query, deduplicated by URL
across queries. -/
def collectUnique (search : String → List EbaySoldItem) (max_candidates_per_query : ℕ) :
    List String → List String → List EbaySoldItem
  | [], _ => []
  | q :: qs, seen =>
    let (page, seen2) := addPage ((search q).take max_candidates_per_query) seen
    page ++ collectUnique search max_candidates_per_query qs seen2

/-- Model of the statistics block of `lookup_ebay_smart` (lines 224-254):
sort the surviving prices, take the element at index `len // 2` as the
median, and compute average, min, max and sample count. -/
def computeStats (query : String) (verified : List EbaySoldItem) : PriceLookupResult :=
  let prices := List.insertionSort (· ≤ ·) (verified.map EbaySoldItem.total_price)
  let median_idx := prices.length / 2
  { query := query
    source := "eBay Smart (n=" ++ toString verified.length ++ ")"
    avg_price := prices.sum / (prices.length : ℚ)
    median_price := prices.getD median_idx 0
    min_price := pyMin prices
    max_price := pyMax prices
    sample_size := verified.length }

/-- Model of `PriceLookupService.lookup_ebay_smart` with the search term
generation already performed (`multi`), the scraper and the match oracle
as functions: drop to `none` when no valid item, no retrieval result or no
surviving candidate exists, otherwise aggregate the surviving set. -/
def lookup_ebay_smart (multi : MultiItemResult) (search : String → List EbaySoldItem)
    (verdict : EbaySoldItem → Bool) (max_search_queries max_candidates_per_query : ℕ)
    (skip_ai_verification : Bool) : Option PriceLookupResult :=
  match multi.valid_items with
  | [] => none
  | best :: rest =>
    let search_queries := (best :: rest).map (fun i => i.search_term.getD "")
    let all_results := collectUnique search max_candidates_per_query search_queries []
    if all_results.isEmpty then none
    else
      let should_skip := skip_ai_verification || best.source == "image"
      let verified :=
        if should_skip then all_results.take max_candidates_per_query
        else (all_results.take (max_candidates_per_query * max_search_queries)).filter verdict
      if verified.isEmpty then none
      else some (computeStats (best.search_term.getD "") verified)

/-! ## Concrete sample data used by witnesses and counterexamples -/

/-- Sample identification result accepted from title+description. -/
def sampleTermResult : SearchTermResult :=
  { search_term := some "nintendo switch oled", source := "title+description",
    reasoning := "", raw_responses := [] }

/-- Sample single-item generation result. -/
def sampleMulti : MultiItemResult :=
  { items := [sampleTermResult], is_multi_item := false, original_title := "t" }

/-- Sample sold item priced at 20. -/
def sampleItemA : EbaySoldItem :=
  { title := "a", price := 20, shipping := 0, total_price := 20,
    condition := "", sold_date := "", url := "u1", image_url := "" }

/-- Sample sold item priced at 10. -/
def sampleItemB : EbaySoldItem :=
  { title := "b", price := 10, shipping := 0, total_price := 10,
    condition := "", sold_date := "", url := "u2", image_url := "" }

/-- Sample oracle bundle whose vision call identifies a specific product. -/
def sampleOracleAccept : PipelineOracles :=
  { identify_from_image := fun _ _ => some "Nintendo Switch OLED White"
    is_specific_enough := fun _ _ => (true, "brand")
    synth_response := fun _ _ _ => "x" }

/-! ## Theorems for the arbitrage evaluator claims -/

/-- Evaluation helper: Scenario D's inputs fall into the guard's else branch. -/
theorem scenarioD_eval :
    computeProfitFields 140 (some 20) 0 (53/4 : ℚ) 15 30 20
      = { potential_profit := 0, profit_percent := 0, is_arbitrage_opportunity := false } := by
  have h : ¬((20 : ℚ) ≠ 0 ∧ (20 : ℚ) > 140) := by norm_num
  simp only [computeProfitFields, if_neg h]

/-- Evaluation helper: asking 100, reference 200, fee 13.25, shipping 15,
no pickup cost, yields profit 58.5 and an opportunity flag. -/
theorem profitEval_100_200 :
    computeProfitFields 100 (some 200) 0 (53/4 : ℚ) 15 30 20
      = { potential_profit := (117/2 : ℚ), profit_percent := (117/2 : ℚ),
          is_arbitrage_opportunity := true } := by
  have hguard : (200 : ℚ) ≠ 0 ∧ (200 : ℚ) > 100 := by norm_num
  simp only [computeProfitFields, if_pos hguard, pyRound, roundHalfEven]
  norm_num

/-- C1 (counterexample): for asking price 140, reference price 20, fee
13.25, shipping 15, pickup cost 0, the code records a potential profit
of `0` and not the claimed `-141.65` (that is, `-2833/20`), because the guard
`reference_price > price` fails and the profit formula never runs. -/
theorem claim1_counterexample :
    (computeProfitFields 140 (some 20) 0 (53/4 : ℚ) 15 30 20).potential_profit = 0 ∧
    (computeProfitFields 140 (some 20) 0 (53/4 : ℚ) 15 30 20).potential_profit ≠ (-(2833/20) : ℚ) ∧
    (computeProfitFields 140 (some 20) 0 (53/4 : ℚ) 15 30 20).is_arbitrage_opportunity = false := by
  rw [scenarioD_eval]
  norm_num

/-- C1 (amended): whenever the reference price is nonzero and exceeds the
asking price, the evaluator computes net_after_fees = r(1 - f/100) - s,
total_cost = p + k, profit = net_after_fees - total_cost (recorded rounded
to 2 decimals) and profit_percent = profit / total_cost * 100, 0 when
total_cost is 0 (recorded rounded to 1 decimal); for Scenario D's inputs
(asking 140, reference 20) the guard fails, so profit is recorded as 0 and
the listing is not flagged. -/
theorem claim1_profit_formula (price r pickup fee ship minD minP : ℚ)
    (h0 : r ≠ 0) (h1 : price < r) (h2 : 0 ≤ price) (h3 : 0 ≤ pickup) :
    (computeProfitFields price (some r) pickup fee ship minD minP).potential_profit
      = pyRound (r * (1 - fee / 100) - ship - (price + pickup)) 2 ∧
    (computeProfitFields price (some r) pickup fee ship minD minP).profit_percent
      = pyRound (if price + pickup = 0 then 0
                 else (r * (1 - fee / 100) - ship - (price + pickup)) / (price + pickup) * 100) 1 ∧
    computeProfitFields 140 (some 20) 0 (53/4 : ℚ) 15 30 20
      = { potential_profit := 0, profit_percent := 0, is_arbitrage_opportunity := false } := by
  have hguard : r ≠ 0 ∧ r > price := ⟨h0, h1⟩
  have he : r - r * (fee / 100) - ship - (price + pickup)
      = r * (1 - fee / 100) - ship - (price + pickup) := by ring
  refine ⟨?_, ?_, scenarioD_eval⟩
  · simp only [computeProfitFields, if_pos hguard]
    rw [← he]
  · simp only [computeProfitFields, if_pos hguard]
    rcases eq_or_lt_of_le (add_nonneg h2 h3) with htc | htc
    · rw [if_neg (by rw [← htc]; exact lt_irrefl 0), if_pos htc.symm]
    · rw [if_pos htc, if_neg htc.ne', he]

/-- C1 witness: the amended theorem evaluated at asking 100, reference 200,
fee 13.25, shipping 15, pickup 0. -/
theorem claim1_witness :
    (200 : ℚ) ≠ 0 ∧ (100 : ℚ) < 200 ∧ (0 : ℚ) ≤ 100 ∧ (0 : ℚ) ≤ 0 ∧
    ((computeProfitFields 100 (some 200) 0 (53/4 : ℚ) 15 30 20).potential_profit
        = pyRound (200 * (1 - 53 / 4 / 100) - 15 - (100 + 0)) 2 ∧
     (computeProfitFields 100 (some 200) 0 (53/4 : ℚ) 15 30 20).profit_percent
        = pyRound (if (100 : ℚ) + 0 = 0 then 0
                   else (200 * (1 - 53 / 4 / 100) - 15 - (100 + 0)) / (100 + 0) * 100) 1 ∧
     computeProfitFields 140 (some 20) 0 (53/4 : ℚ) 15 30 20
       = { potential_profit := 0, profit_percent := 0, is_arbitrage_opportunity := false }) :=
  ⟨by norm_num, by norm_num, by norm_num, le_refl 0,
   claim1_profit_formula 100 200 0 (53/4 : ℚ) 15 30 20 (by norm_num) (by norm_num) (by norm_num)
     (le_refl 0)⟩

/-- C2: in the branch where the profit formula runs, the opportunity flag
is set exactly when profit meets the dollar threshold OR profit_percent
meets the percent threshold — either condition alone suffices; and every
flagged listing whatsoever satisfies at least one of the two threshold
conditions. -/
theorem claim2_opportunity_iff (price pickup fee ship minD minP : ℚ) :
    (∀ r : ℚ, r ≠ 0 → price < r →
      ((computeProfitFields price (some r) pickup fee ship minD minP).is_arbitrage_opportunity
          = true
        ↔ (r * (1 - fee / 100) - ship - (price + pickup) ≥ minD
           ∨ (if price + pickup > 0
              then (r * (1 - fee / 100) - ship - (price + pickup)) / (price + pickup) * 100
              else 0) ≥ minP))) ∧
    (∀ reference_price : Option ℚ,
      (computeProfitFields price reference_price pickup fee ship minD minP).is_arbitrage_opportunity
          = true →
      ∃ r, reference_price = some r ∧
        (r * (1 - fee / 100) - ship - (price + pickup) ≥ minD
         ∨ (if price + pickup > 0
            then (r * (1 - fee / 100) - ship - (price + pickup)) / (price + pickup) * 100
            else 0) ≥ minP)) := by
  have he : ∀ r : ℚ, r - r * (fee / 100) - ship - (price + pickup)
      = r * (1 - fee / 100) - ship - (price + pickup) := fun r => by ring
  constructor
  · intro r h0 h1
    simp only [computeProfitFields, if_pos (⟨h0, h1⟩ : r ≠ 0 ∧ r > price), decide_eq_true_eq,
      he r]
  · intro reference_price hflag
    cases reference_price with
    | none => simp [computeProfitFields] at hflag
    | some r =>
      refine ⟨r, rfl, ?_⟩
      by_cases hg : r ≠ 0 ∧ r > price
      · simp only [computeProfitFields, if_pos hg, decide_eq_true_eq, he r] at hflag
        exact hflag
      · simp [computeProfitFields, if_neg hg] at hflag

/-- C2 witness: the opportunity flag at asking 100, reference 200, fee
13.25, shipping 15, pickup 0 satisfies the disjunctive characterization. -/
theorem claim2_witness :
    (200 : ℚ) ≠ 0 ∧ (100 : ℚ) < 200 ∧
    ((computeProfitFields 100 (some 200) 0 (53/4 : ℚ) 15 30 20).is_arbitrage_opportunity = true
      ↔ ((200 : ℚ) * (1 - 53 / 4 / 100) - 15 - (100 + 0) ≥ 30
         ∨ (if (100 : ℚ) + 0 > 0
            then ((200 : ℚ) * (1 - 53 / 4 / 100) - 15 - (100 + 0)) / (100 + 0) * 100
            else 0) ≥ 20)) :=
  ⟨by norm_num, by norm_num,
   (claim2_opportunity_iff 100 0 (53/4 : ℚ) 15 30 20).1 200 (by norm_num) (by norm_num)⟩

/-- C3: when the reference price is absent or does not exceed the asking
price, the analysis records potential_profit = 0, profit_percent = 0 and
no opportunity flag; the profit formula never produces a negative record
for listings priced at or above their reference price. -/
theorem claim3_no_profit_without_margin (price : ℚ) (reference_price : Option ℚ)
    (pickup fee ship minD minP : ℚ)
    (h : reference_price = none ∨ ∃ r, reference_price = some r ∧ r ≤ price) :
    computeProfitFields price reference_price pickup fee ship minD minP
      = { potential_profit := 0, profit_percent := 0, is_arbitrage_opportunity := false } := by
  rcases h with h | ⟨r, hr, hle⟩
  · subst h; rfl
  · subst hr
    simp only [computeProfitFields]
    rw [if_neg]
    rintro ⟨-, hgt⟩
    exact absurd hgt (not_lt.mpr hle)

/-- C3 witness: a listing with no reference price records zeros and no flag. -/
theorem claim3_witness :
    ((none : Option ℚ) = none ∨ ∃ r, (none : Option ℚ) = some r ∧ r ≤ (50 : ℚ)) ∧
    computeProfitFields 50 none 0 (53/4 : ℚ) 15 30 20
      = { potential_profit := 0, profit_percent := 0, is_arbitrage_opportunity := false } :=
  ⟨Or.inl rfl, claim3_no_profit_without_margin 50 none 0 (53/4 : ℚ) 15 30 20 (Or.inl rfl)⟩

/-- C6 (counterexample): for a location string with no distance pattern the
parser correctly returns `none`, but `analyze_listing` then silently falls
back to a pickup cost of `0`: the profit evaluation equals the one with
pickup cost 0 and here even flags an opportunity despite the unknown
distance, contradicting the claim that a zero pickup cost is never
silently used. -/
theorem claim6_counterexample :
    parse_distance_from_location "Listed 2 days ago in Pittsburgh, PA" = none ∧
    analyzeListing 100 (some 200) "Listed 2 days ago in Pittsburgh, PA"
        (some (25, (13/4 : ℚ))) (53/4 : ℚ) 15 30 20
      = computeProfitFields 100 (some 200) 0 (53/4 : ℚ) 15 30 20 ∧
    (analyzeListing 100 (some 200) "Listed 2 days ago in Pittsburgh, PA"
        (some (25, (13/4 : ℚ))) (53/4 : ℚ) 15 30 20).potential_profit = (117/2 : ℚ) ∧
    (analyzeListing 100 (some 200) "Listed 2 days ago in Pittsburgh, PA"
        (some (25, (13/4 : ℚ))) (53/4 : ℚ) 15 30 20).is_arbitrage_opportunity = true := by
  have hparse : parse_distance_from_location "Listed 2 days ago in Pittsburgh, PA" = none := by
    decide
  have heq : analyzeListing 100 (some 200) "Listed 2 days ago in Pittsburgh, PA"
      (some (25, (13/4 : ℚ))) (53/4 : ℚ) 15 30 20
      = computeProfitFields 100 (some 200) 0 (53/4 : ℚ) 15 30 20 := by
    simp only [analyzeListing, calculatePickup, hparse]
  refine ⟨hparse, heq, ?_, ?_⟩ <;> rw [heq, profitEval_100_200]

/-- C6 (amended): distance parsing returns "unknown" (`none`), not zero,
when no pattern matches, and tolerates "N miles away", "N mi" and
"City, ST · N miles"; the pickup calculator returns no result for an
unknown distance, but `analyze_listing` then falls back to a pickup cost
of `0` in the profit evaluation. -/
theorem claim6_unknown_distance (location : String) (mpg gas price : ℚ)
    (reference_price : Option ℚ) (fee ship minD minP : ℚ)
    (h : parse_distance_from_location location = none) :
    calculatePickup mpg gas location = none ∧
    analyzeListing price reference_price location (some (mpg, gas)) fee ship minD minP
      = computeProfitFields price reference_price 0 fee ship minD minP ∧
    parse_distance_from_location "5 miles away" = some 5 ∧
    parse_distance_from_location "10 mi" = some 10 ∧
    parse_distance_from_location "Pittsburgh, PA · 12 miles" = some 12 := by
  refine ⟨?_, ?_, by decide, by decide, by decide⟩
  · simp only [calculatePickup, h]
  · simp only [analyzeListing, calculatePickup, h]

/-- C6 witness: the amended theorem evaluated at a location with no
distance pattern. -/
theorem claim6_witness :
    parse_distance_from_location "Listed in Pittsburgh" = none ∧
    (calculatePickup 25 (13/4 : ℚ) "Listed in Pittsburgh" = none ∧
     analyzeListing 100 (some 200) "Listed in Pittsburgh" (some (25, (13/4 : ℚ))) (53/4 : ℚ) 15 30 20
       = computeProfitFields 100 (some 200) 0 (53/4 : ℚ) 15 30 20 ∧
     parse_distance_from_location "5 miles away" = some 5 ∧
     parse_distance_from_location "10 mi" = some 10 ∧
     parse_distance_from_location "Pittsburgh, PA · 12 miles" = some 12) :=
  ⟨by decide,
   claim6_unknown_distance "Listed in Pittsburgh" 25 (13/4 : ℚ) 100 (some 200) (53/4 : ℚ) 15 30 20
     (by decide)⟩

/-! ## Theorems for the matcher and disambiguation claims -/

/-- C7: the claim requires that the match step uses the caller-configured
`ai_min_confidence` as its threshold; the code passes it as the keyword
argument `match_threshold`, which `AIItemMatcher.__init__` does not
declare, so constructing the matcher raises `TypeError` for every
configured confidence instead of installing the configured threshold. -/
theorem claim7_threshold_not_configured :
    "match_threshold" ∉ aiItemMatcherInitKeywords ∧
    ∀ ai_min_confidence : ℚ, getAiMatcher ai_min_confidence
      = Except.error
          "TypeError: AIItemMatcher.__init__ got an unexpected keyword argument match_threshold" := by
  refine ⟨by decide, fun c => ?_⟩
  unfold getAiMatcher
  rw [if_neg (by decide)]

/-- C9: a raw category term whose lowercased, stripped form is in the
hardcoded ambiguous-term table is flagged as needing clarification from
the table's meanings, independently of the language-model oracle; in
particular "ram" yields the two distinct meanings computer memory and
truck parts, each with a non-empty list of query variants. -/
theorem claim9_hardcoded_ambiguous (oracle oracle2 : String → TermEvaluation) (term : String)
    (meanings : List (String × List String))
    (h : lookupAlwaysAmbiguous (pyStrip (pyLower term)) = some meanings) :
    evaluate_search_term oracle term = evaluate_search_term oracle2 term ∧
    (evaluate_search_term oracle term).needs_clarification = true ∧
    (evaluate_search_term oracle term).interpretations
      = meanings.map (fun m => { meaning := m.fst, search_terms := m.snd }) ∧
    (evaluate_search_term oracle "ram").needs_clarification = true ∧
    (evaluate_search_term oracle "ram").interpretations
      = [ { meaning := "computer memory",
            search_terms := ["DDR4 RAM", "DDR5 RAM", "desktop RAM", "laptop RAM"] },
          { meaning := "truck parts",
            search_terms := ["Dodge Ram parts", "Ram 1500", "Ram 2500", "Ram truck"] } ] ∧
    "computer memory" ≠ "truck parts" := by
  have hev : ∀ o : String → TermEvaluation, evaluate_search_term o term
      = { needs_clarification := true
          interpretations := meanings.map (fun m => { meaning := m.fst, search_terms := m.snd })
          reasoning := "'" ++ term ++ "' is a known ambiguous term with multiple meanings" } := by
    intro o
    unfold evaluate_search_term
    dsimp only
    rw [h]
  refine ⟨by rw [hev oracle, hev oracle2], by rw [hev oracle], by rw [hev oracle],
    rfl, rfl, by decide⟩

/-- C9 witness: the theorem evaluated at the term "ram" with a trivial
oracle on both sides. -/
theorem claim9_witness :
    lookupAlwaysAmbiguous (pyStrip (pyLower "ram"))
      = some [("computer memory", ["DDR4 RAM", "DDR5 RAM", "desktop RAM", "laptop RAM"]),
              ("truck parts", ["Dodge Ram parts", "Ram 1500", "Ram 2500", "Ram truck"])] ∧
    (evaluate_search_term (fun _ => ⟨false, [], ""⟩) "ram"
        = evaluate_search_term (fun _ => ⟨true, [], "x"⟩) "ram" ∧
     (evaluate_search_term (fun _ => ⟨false, [], ""⟩) "ram").needs_clarification = true ∧
     (evaluate_search_term (fun _ => ⟨false, [], ""⟩) "ram").interpretations
       = ([("computer memory", ["DDR4 RAM", "DDR5 RAM", "desktop RAM", "laptop RAM"]),
           ("truck parts", ["Dodge Ram parts", "Ram 1500", "Ram 2500", "Ram truck"])].map
            (fun m => { meaning := m.fst, search_terms := m.snd })) ∧
     (evaluate_search_term (fun _ => ⟨false, [], ""⟩) "ram").needs_clarification = true ∧
     (evaluate_search_term (fun _ => ⟨false, [], ""⟩) "ram").interpretations
       = [ { meaning := "computer memory",
             search_terms := ["DDR4 RAM", "DDR5 RAM", "desktop RAM", "laptop RAM"] },
           { meaning := "truck parts",
             search_terms := ["Dodge Ram parts", "Ram 1500", "Ram 2500", "Ram truck"] } ] ∧
     "computer memory" ≠ "truck parts") :=
  ⟨rfl,
   claim9_hardcoded_ambiguous (fun _ => ⟨false, [], ""⟩) (fun _ => ⟨true, [], "x"⟩) "ram"
     [("computer memory", ["DDR4 RAM", "DDR5 RAM", "desktop RAM", "laptop RAM"]),
      ("truck parts", ["Dodge Ram parts", "Ram 1500", "Ram 2500", "Ram truck"])] rfl⟩

/-! ## Theorems for the search-term pipeline claims -/

/-- C8: when the image identification exists and the specificity oracle
judges it specific, the pipeline terminates at the image state with
source "image"; neither synthesis state nor any later specificity check
runs, as witnessed by the recorded raw-response keys. -/
theorem claim8_image_acceptance_terminal (o : PipelineOracles) (title : String)
    (description : Option String) (url ident : String)
    (h1 : url ≠ "") (h2 : o.identify_from_image url title = some ident) (h3 : ident ≠ "")
    (h4 : (o.is_specific_enough ident "This was identified from the listing image").fst = true) :
    (generate_search_term o title description (some url)).search_term = some ident ∧
    (generate_search_term o title description (some url)).source = "image" ∧
    (generate_search_term o title description (some url)).raw_responses
      = ["image_identification", "image_specificity_check"] ∧
    "synthesized_v1" ∉ (generate_search_term o title description (some url)).raw_responses ∧
    "v1_specificity_check" ∉ (generate_search_term o title description (some url)).raw_responses ∧
    "synthesized_v2" ∉ (generate_search_term o title description (some url)).raw_responses := by
  have hg : generate_search_term o title description (some url)
      = { search_term := some ident, source := "image",
          reasoning := (o.is_specific_enough ident "This was identified from the listing image").snd,
          raw_responses := ["image_identification", "image_specificity_check"] } := by
    unfold generate_search_term imageStep
    have hopt : optTruthy (some url) = true := by simp [optTruthy, h1]
    simp only [hopt, if_pos h1, h2, if_pos h3, if_true]
    rw [if_pos h4]
    rfl
  rw [hg]
  refine ⟨rfl, rfl, rfl, ?_, ?_, ?_⟩ <;> (dsimp only; decide)

/-- C8 witness: the theorem evaluated on a concrete oracle whose vision
call returns a specific identification. -/
theorem claim8_witness :
    ("http://img" ≠ "") ∧
    (sampleOracleAccept.identify_from_image "http://img" "t" = some "Nintendo Switch OLED White") ∧
    ("Nintendo Switch OLED White" ≠ "") ∧
    ((sampleOracleAccept.is_specific_enough "Nintendo Switch OLED White"
        "This was identified from the listing image").fst = true) ∧
    ((generate_search_term sampleOracleAccept "t" none (some "http://img")).search_term
        = some "Nintendo Switch OLED White" ∧
     (generate_search_term sampleOracleAccept "t" none (some "http://img")).source = "image" ∧
     (generate_search_term sampleOracleAccept "t" none (some "http://img")).raw_responses
        = ["image_identification", "image_specificity_check"] ∧
     "synthesized_v1" ∉ (generate_search_term sampleOracleAccept "t" none (some "http://img")).raw_responses ∧
     "v1_specificity_check" ∉ (generate_search_term sampleOracleAccept "t" none (some "http://img")).raw_responses ∧
     "synthesized_v2" ∉ (generate_search_term sampleOracleAccept "t" none (some "http://img")).raw_responses) :=
  ⟨by decide, rfl, by decide, rfl,
   claim8_image_acceptance_terminal sampleOracleAccept "t" none "http://img"
     "Nintendo Switch OLED White" (by decide) rfl (by decide) rfl⟩

/-- Helper: the later synthesis states never record a `v1_specificity_check`
key and never accept with source "title+description". -/
theorem pipelineStep5_no_v1_check (o : PipelineOracles) (title : String)
    (description image_identification : Option String) (raw : List String)
    (hraw : "v1_specificity_check" ∉ raw) :
    "v1_specificity_check" ∉ (pipelineStep5 o title description image_identification raw).raw_responses ∧
    (pipelineStep5 o title description image_identification raw).source ≠ "title+description" := by
  unfold pipelineStep5
  cases image_identification with
  | none => exact ⟨hraw, by dsimp only [dropResult]; decide⟩
  | some ident =>
    dsimp only
    split_ifs with hv hsp
    · refine ⟨?_, by dsimp only; decide⟩
      dsimp only
      simp only [List.mem_append, List.mem_cons, List.not_mem_nil, or_false]
      rintro ((h | h) | h) <;> first | exact hraw h | exact absurd h (by decide)
    · refine ⟨?_, by dsimp only [dropResult]; decide⟩
      dsimp only [dropResult]
      simp only [List.mem_append, List.mem_cons, List.not_mem_nil, or_false]
      rintro ((h | h) | h) <;> first | exact hraw h | exact absurd h (by decide)
    · refine ⟨?_, by dsimp only [dropResult]; decide⟩
      dsimp only [dropResult]
      simp only [List.mem_append, List.mem_cons, List.not_mem_nil, or_false]
      rintro (h | h) <;> first | exact hraw h | exact absurd h (by decide)

/-- Helper: when the title+description synthesis yields the sentinel, the
pipeline never consults the specificity oracle on it and never accepts
with source "title+description". -/
theorem pipelineStep3_sentinel (o : PipelineOracles) (title : String)
    (description image_identification : Option String) (raw : List String)
    (hv1 : synthesize_term o title description none = CANNOT_IDENTIFY)
    (hraw : "v1_specificity_check" ∉ raw) :
    "v1_specificity_check" ∉ (pipelineStep3 o title description image_identification raw).raw_responses ∧
    (pipelineStep3 o title description image_identification raw).source ≠ "title+description" := by
  unfold pipelineStep3
  dsimp only
  rw [hv1, if_neg (by simp)]
  refine pipelineStep5_no_v1_check o title description image_identification _ ?_
  simp only [List.mem_append, List.mem_cons, List.not_mem_nil, or_false]
  rintro (h | h) <;> first | exact hraw h | exact absurd h (by decide)

/-- Helper: when the title+description synthesis yields the sentinel, the
image state and everything after it never record a `v1_specificity_check`
key and never accept with source "title+description". -/
theorem imageStep_sentinel (o : PipelineOracles) (title : String)
    (description image_identification : Option String) (raw0 : List String)
    (hv1 : synthesize_term o title description none = CANNOT_IDENTIFY)
    (hraw : "v1_specificity_check" ∉ raw0) :
    "v1_specificity_check" ∉ (imageStep o title description image_identification raw0).raw_responses ∧
    (imageStep o title description image_identification raw0).source ≠ "title+description" := by
  unfold imageStep
  cases image_identification with
  | none => exact pipelineStep3_sentinel o title description none raw0 hv1 hraw
  | some ident =>
    dsimp only
    split_ifs with hsp
    · refine ⟨?_, by dsimp only; decide⟩
      dsimp only
      simp only [List.mem_append, List.mem_cons, List.not_mem_nil, or_false]
      rintro (h | h) <;> first | exact hraw h | exact absurd h (by decide)
    · refine pipelineStep3_sentinel o title description _ _ hv1 ?_
      simp only [List.mem_append, List.mem_cons, List.not_mem_nil, or_false]
      rintro (h | h) <;> first | exact hraw h | exact absurd h (by decide)

/-- C10: a synthesized candidate containing a generic placeholder word is
replaced by the `CANNOT_IDENTIFY` sentinel, so the candidate never reaches
the specificity oracle and the pipeline never accepts a term from the
title+description state. -/
theorem claim10_placeholder_sentinel (response bad : String)
    (hb : bad ∈ bad_words)
    (hc : containsSub bad.data (pyLower (cleanResponse response)).data = true) :
    (∀ (o : PipelineOracles) (title : String) (description : Option String),
       o.synth_response title description none = response →
       synthesize_term o title description none = CANNOT_IDENTIFY) ∧
    (∀ (o : PipelineOracles) (title : String) (description image_url : Option String),
       o.synth_response title description none = response →
       "v1_specificity_check" ∉ (generate_search_term o title description image_url).raw_responses ∧
       (generate_search_term o title description image_url).source ≠ "title+description") := by
  have hsent : ∀ (o : PipelineOracles) (title : String) (description : Option String),
      o.synth_response title description none = response →
      synthesize_term o title description none = CANNOT_IDENTIFY := by
    intro o title description hresp
    have hany : bad_words.any
        (fun b => containsSub b.data
          (pyLower (cleanResponse (o.synth_response title description none))).data) = true := by
      rw [hresp]
      exact List.any_eq_true.mpr ⟨bad, hb, hc⟩
    unfold synthesize_term
    dsimp only
    rw [if_pos hany]
  refine ⟨hsent, fun o title description image_url hresp => ?_⟩
  have hraw0 : "v1_specificity_check"
      ∉ (if optTruthy image_url then ["image_identification"] else ([] : List String)) := by
    split_ifs <;> simp
  unfold generate_search_term
  dsimp only
  apply imageStep_sentinel
  · exact hsent o title description hresp
  · exact hraw0

/-- C10 witness: the theorem evaluated at the raw response "Unknown item"
and the placeholder word "unknown". -/
theorem claim10_witness :
    ("unknown" ∈ bad_words) ∧
    (containsSub "unknown".data (pyLower (cleanResponse "Unknown item")).data = true) ∧
    ((∀ (o : PipelineOracles) (title : String) (description : Option String),
        o.synth_response title description none = "Unknown item" →
        synthesize_term o title description none = CANNOT_IDENTIFY) ∧
     (∀ (o : PipelineOracles) (title : String) (description image_url : Option String),
        o.synth_response title description none = "Unknown item" →
        "v1_specificity_check" ∉ (generate_search_term o title description image_url).raw_responses ∧
        (generate_search_term o title description image_url).source ≠ "title+description")) :=
  ⟨by decide, by decide,
   claim10_placeholder_sentinel "Unknown item" "unknown" (by decide) (by decide)⟩

/-! ## Theorems for the aggregation claims -/

/-- Helper: a `min`-fold over a list returns the seed or a member. -/
theorem foldl_min_eq_init_or_mem (xs : List ℚ) : ∀ x : ℚ,
    xs.foldl min x = x ∨ xs.foldl min x ∈ xs := by
  induction xs with
  | nil => intro x; exact Or.inl rfl
  | cons y ys ih =>
    intro x
    rw [List.foldl_cons]
    rcases ih (min x y) with h | h
    · rcases min_choice x y with hm | hm
      · exact Or.inl (h.trans hm)
      · exact Or.inr (by rw [h, hm]; exact List.mem_cons_self _ _)
    · exact Or.inr (List.mem_cons_of_mem _ h)

/-- Helper: a `min`-fold is bounded by its seed. -/
theorem foldl_min_le_init (xs : List ℚ) : ∀ x : ℚ, xs.foldl min x ≤ x := by
  induction xs with
  | nil => intro x; exact le_refl x
  | cons y ys ih =>
    intro x
    rw [List.foldl_cons]
    exact (ih (min x y)).trans (min_le_left x y)

/-- Helper: a `min`-fold is bounded by every member. -/
theorem foldl_min_le_mem (xs : List ℚ) : ∀ x y : ℚ, y ∈ xs → xs.foldl min x ≤ y := by
  induction xs with
  | nil => intro x y hy; cases hy
  | cons z zs ih =>
    intro x y hy
    rw [List.foldl_cons]
    rcases List.mem_cons.mp hy with rfl | hy
    · exact (foldl_min_le_init zs (min x y)).trans (min_le_right x y)
    · exact ih (min x z) y hy

/-- Helper: `pyMin` of a nonempty list is a member. -/
theorem pyMin_mem {l : List ℚ} (h : l ≠ []) : pyMin l ∈ l := by
  cases l with
  | nil => exact absurd rfl h
  | cons x xs =>
    rcases foldl_min_eq_init_or_mem xs x with hm | hm
    · rw [pyMin, hm]; exact List.mem_cons_self _ _
    · exact List.mem_cons_of_mem _ hm

/-- Helper: `pyMin` is a lower bound of the list. -/
theorem pyMin_le {l : List ℚ} {y : ℚ} (hy : y ∈ l) : pyMin l ≤ y := by
  cases l with
  | nil => cases hy
  | cons x xs =>
    rcases List.mem_cons.mp hy with rfl | hy
    · exact foldl_min_le_init xs y
    · exact foldl_min_le_mem xs x y hy

/-- Helper: a `max`-fold over a list returns the seed or a member. -/
theorem foldl_max_eq_init_or_mem (xs : List ℚ) : ∀ x : ℚ,
    xs.foldl max x = x ∨ xs.foldl max x ∈ xs := by
  induction xs with
  | nil => intro x; exact Or.inl rfl
  | cons y ys ih =>
    intro x
    rw [List.foldl_cons]
    rcases ih (max x y) with h | h
    · rcases max_choice x y with hm | hm
      · exact Or.inl (h.trans hm)
      · exact Or.inr (by rw [h, hm]; exact List.mem_cons_self _ _)
    · exact Or.inr (List.mem_cons_of_mem _ h)

/-- Helper: a `max`-fold dominates its seed. -/
theorem init_le_foldl_max (xs : List ℚ) : ∀ x : ℚ, x ≤ xs.foldl max x := by
  induction xs with
  | nil => intro x; exact le_refl x
  | cons y ys ih =>
    intro x
    rw [List.foldl_cons]
    exact (le_max_left x y).trans (ih (max x y))

/-- Helper: a `max`-fold dominates every member. -/
theorem mem_le_foldl_max (xs : List ℚ) : ∀ x y : ℚ, y ∈ xs → y ≤ xs.foldl max x := by
  induction xs with
  | nil => intro x y hy; cases hy
  | cons z zs ih =>
    intro x y hy
    rw [List.foldl_cons]
    rcases List.mem_cons.mp hy with rfl | hy
    · exact (le_max_right x y).trans (init_le_foldl_max zs (max x y))
    · exact ih (max x z) y hy

/-- Helper: `pyMax` of a nonempty list is a member. -/
theorem pyMax_mem {l : List ℚ} (h : l ≠ []) : pyMax l ∈ l := by
  cases l with
  | nil => exact absurd rfl h
  | cons x xs =>
    rcases foldl_max_eq_init_or_mem xs x with hm | hm
    · rw [pyMax, hm]; exact List.mem_cons_self _ _
    · exact List.mem_cons_of_mem _ hm

/-- Helper: `pyMax` is an upper bound of the list. -/
theorem le_pyMax {l : List ℚ} {y : ℚ} (hy : y ∈ l) : y ≤ pyMax l := by
  cases l with
  | nil => cases hy
  | cons x xs =>
    rcases List.mem_cons.mp hy with rfl | hy
    · exact init_le_foldl_max xs y
    · exact mem_le_foldl_max xs x y hy

/-- Helper: a list that is not `isEmpty` has length at least 1. -/
theorem one_le_length_of_not_isEmpty {α : Type} (l : List α) (h : ¬ l.isEmpty = true) :
    1 ≤ l.length := by
  cases l with
  | nil => exact absurd rfl h
  | cons a t => exact Nat.succ_le_succ (Nat.zero_le _)

/-- C5 (counterexample): over the two verified prices 20 and 10 the code
reports median 20, the element at index `len // 2 = 1` of the sorted list
`[10, 20]` — the upper-middle element — whereas the claim's lower-middle
element is 10. -/
theorem claim5_counterexample :
    (lookup_ebay_smart sampleMulti (fun _ => [sampleItemA, sampleItemB])
        (fun _ => true) 3 5 false).map PriceLookupResult.median_price = some 20 ∧
    List.insertionSort (· ≤ ·) ([sampleItemA, sampleItemB].map EbaySoldItem.total_price)
      = [10, 20] ∧
    (20 : ℚ) ≠ 10 := by
  refine ⟨by decide, by decide, by decide⟩

/-- C5 (amended): every aggregate over n ≥ 1 verified prices reports the
element at index `n / 2` of the ascending sorted price list as the median
(the middle element for odd n, the upper-middle element for even n), and
the average, min, max and count are the mean, minimum, maximum and
cardinality of that same surviving set. -/
theorem claim5_statistics (query : String) (verified : List EbaySoldItem) (h : verified ≠ []) :
    (computeStats query verified).sample_size = verified.length ∧
    (computeStats query verified).avg_price
      = (verified.map EbaySoldItem.total_price).sum / (verified.length : ℚ) ∧
    ((computeStats query verified).min_price ∈ verified.map EbaySoldItem.total_price
      ∧ ∀ x ∈ verified.map EbaySoldItem.total_price, (computeStats query verified).min_price ≤ x) ∧
    ((computeStats query verified).max_price ∈ verified.map EbaySoldItem.total_price
      ∧ ∀ x ∈ verified.map EbaySoldItem.total_price, x ≤ (computeStats query verified).max_price) ∧
    (computeStats query verified).median_price
      = (List.insertionSort (· ≤ ·) (verified.map EbaySoldItem.total_price)).getD
          (verified.length / 2) 0 := by
  have hperm : List.Perm (List.insertionSort (· ≤ ·) (verified.map EbaySoldItem.total_price))
      (verified.map EbaySoldItem.total_price) := List.perm_insertionSort _ _
  have hlen : (List.insertionSort (· ≤ ·) (verified.map EbaySoldItem.total_price)).length
      = verified.length := by
    rw [hperm.length_eq, List.length_map]
  have hnil : List.insertionSort (· ≤ ·) (verified.map EbaySoldItem.total_price) ≠ [] := by
    intro hc
    apply h
    have := hlen
    rw [hc] at this
    exact List.length_eq_zero.mp this.symm
  refine ⟨rfl, ?_, ⟨?_, ?_⟩, ⟨?_, ?_⟩, ?_⟩
  · show (List.insertionSort (· ≤ ·) (verified.map EbaySoldItem.total_price)).sum
        / (((List.insertionSort (· ≤ ·) (verified.map EbaySoldItem.total_price)).length : ℕ) : ℚ)
      = (verified.map EbaySoldItem.total_price).sum / (verified.length : ℚ)
    rw [hperm.sum_eq, hlen]
  · exact hperm.mem_iff.mp (pyMin_mem hnil)
  · intro x hx
    exact pyMin_le (hperm.mem_iff.mpr hx)
  · exact hperm.mem_iff.mp (pyMax_mem hnil)
  · intro x hx
    exact le_pyMax (hperm.mem_iff.mpr hx)
  · show (List.insertionSort (· ≤ ·) (verified.map EbaySoldItem.total_price)).getD
        ((List.insertionSort (· ≤ ·) (verified.map EbaySoldItem.total_price)).length / 2) 0
      = (List.insertionSort (· ≤ ·) (verified.map EbaySoldItem.total_price)).getD
          (verified.length / 2) 0
    rw [hlen]

/-- C5 witness: the amended statistics theorem evaluated on a single
verified sale. -/
theorem claim5_witness :
    [sampleItemA] ≠ [] ∧
    ((computeStats "q" [sampleItemA]).sample_size = [sampleItemA].length ∧
     (computeStats "q" [sampleItemA]).avg_price
       = ([sampleItemA].map EbaySoldItem.total_price).sum / ([sampleItemA].length : ℚ) ∧
     ((computeStats "q" [sampleItemA]).min_price ∈ [sampleItemA].map EbaySoldItem.total_price
       ∧ ∀ x ∈ [sampleItemA].map EbaySoldItem.total_price,
           (computeStats "q" [sampleItemA]).min_price ≤ x) ∧
     ((computeStats "q" [sampleItemA]).max_price ∈ [sampleItemA].map EbaySoldItem.total_price
       ∧ ∀ x ∈ [sampleItemA].map EbaySoldItem.total_price,
           x ≤ (computeStats "q" [sampleItemA]).max_price) ∧
     (computeStats "q" [sampleItemA]).median_price
       = (List.insertionSort (· ≤ ·) ([sampleItemA].map EbaySoldItem.total_price)).getD
           ([sampleItemA].length / 2) 0) :=
  ⟨List.cons_ne_nil _ _, claim5_statistics "q" [sampleItemA] (List.cons_ne_nil _ _)⟩

/-- C4: a price aggregate is produced only from a nonempty surviving set
(its sample count equals the surviving set's size and is at least 1), and
when verification runs (no skip flag, term not image-sourced) and no
retrieved candidate passes the match oracle, the lookup reports no result
rather than any statistic. -/
theorem claim4_no_fabricated_aggregate (multi : MultiItemResult)
    (search : String → List EbaySoldItem) (verdict : EbaySoldItem → Bool)
    (max_search_queries max_candidates_per_query : ℕ) (skip_ai_verification : Bool) :
    (∀ r, lookup_ebay_smart multi search verdict max_search_queries max_candidates_per_query
        skip_ai_verification = some r → 1 ≤ r.sample_size) ∧
    (skip_ai_verification = false →
     (∀ v ∈ multi.valid_items, v.source ≠ "image") →
     (∀ it, verdict it = false) →
     lookup_ebay_smart multi search verdict max_search_queries max_candidates_per_query
        skip_ai_verification = none) := by
  constructor
  · intro r hr
    unfold lookup_ebay_smart at hr
    rcases hv : multi.valid_items with _ | ⟨best, rest⟩
    · rw [hv] at hr
      simp at hr
    · rw [hv] at hr
      dsimp only at hr
      split_ifs at hr with h1 h2 h3 h4
      · obtain rfl := Option.some.inj hr
        exact one_le_length_of_not_isEmpty _ h3
      · obtain rfl := Option.some.inj hr
        exact one_le_length_of_not_isEmpty _ h4
  · intro hskip hsrc hverd
    unfold lookup_ebay_smart
    rcases hv : multi.valid_items with _ | ⟨best, rest⟩
    · rfl
    · dsimp only
      have hb : (best.source == "image") = false :=
        beq_eq_false_iff_ne.mpr (hsrc best (by rw [hv]; exact List.mem_cons_self _ _))
      have hfil : ∀ l : List EbaySoldItem, l.filter verdict = [] := fun l =>
        List.filter_eq_nil_iff.mpr (fun a _ => by simp [hverd a])
      rw [hskip, Bool.false_or, hb]
      simp [hfil]

/-- C4 witness: the lookup evaluated with a non-image source term, the
skip flag off, and a match oracle that rejects every candidate reports no
result. -/
theorem claim4_witness :
    (false = false) ∧ (∀ v ∈ sampleMulti.valid_items, v.source ≠ "image") ∧
    (∀ it : EbaySoldItem, (fun _ : EbaySoldItem => false) it = false) ∧
    lookup_ebay_smart sampleMulti (fun _ => [sampleItemA, sampleItemB])
      (fun _ => false) 3 5 false = none :=
  ⟨rfl, by decide, fun _ => rfl,
   (claim4_no_fabricated_aggregate sampleMulti (fun _ => [sampleItemA, sampleItemB])
      (fun _ => false) 3 5 false).2 rfl (by decide) (fun _ => rfl)⟩

end FaceScrape
